/-
  Verification of the controllerhost event handlers
  (services/controllerhost/event_handlers.go) of cherami-server.

  The Go code is shallowly embedded: every external collaborator call
  (metadata gateway, host directory, client factory, token bucket, event
  pipeline, result cache) is modelled as a field of an environment record
  holding the outcome the collaborator would return, and each handler is a
  pure Lean function from the environment and the event to an outcome
  record that captures the handler's return value together with its
  externally visible effects (RPCs issued, cache invalidations, tracking
  set updates, notifications offered to the event pipeline).

  Machine integers only flow through these handlers (sealSeq : int64,
  expiry : int64 nanoseconds); no arithmetic that could overflow is
  performed on them, so they are embedded as Int.
-/
import Mathlib

/-! ## Shared data model -/

/-- shared.ExtentStatus (thrift enum); only OPEN versus the rest matters
to the handlers. -/
inductive ExtentStatus
  | OPEN
  | SEALED
  | CONSUMED
  | ARCHIVED
  | DELETED
deriving DecidableEq, BEq

/-- admin.NotificationType values used by event_handlers.go. -/
inductive NotificationType
  | ALL
  | CLIENT
deriving DecidableEq, BEq

/-- ExtentDownEvent handler states (the `iota` block of event_handlers.go). -/
def checkPreconditionState : Nat := 0

def sealExtentState : Nat := 1

def updateMetadataState : Nat := 2

def doneState : Nat := 3

/-- resultCacheRefreshMaxWaitTime = int64(500 * time.Millisecond),
in nanoseconds. -/
def resultCacheRefreshMaxWaitTime : Int := 500 * 1000000

/-! ## Event records (the structs of event_handlers.go) -/

structure ExtentCreatedEvent where
  dstID : String
  inHostID : String
  extentID : String
  storeIDs : List String
deriving DecidableEq

structure InputHostNotificationEvent where
  dstID : String
  inputHostID : String
  extentID : String
  storeIDs : List String
  reason : String
  reasonContext : String
  notificationType : NotificationType
deriving DecidableEq

structure ExtentDownEvent where
  state : Nat
  sealSeq : Int
  dstID : String
  extentID : String
  storeIDs : List String
deriving DecidableEq

structure RemoteZoneExtentCreatedEvent where
  dstID : String
  extentID : String
  storeIDs : List String
deriving DecidableEq

structure InputHostFailedEvent where
  hostUUID : String
deriving DecidableEq

structure StoreHostFailedEvent where
  hostUUID : String
deriving DecidableEq

/-- the "reason" string used by ExtentCreatedEvent.Handle. -/
def notifyExtentCreated : String := "ExtentCreated"

/-- NewInputHostNotificationEvent constructor. -/
def NewInputHostNotificationEvent (dstID inputHostID extentID : String)
    (storeIDs : List String) (reason reasonContext : String)
    (notificationType : NotificationType) : InputHostNotificationEvent :=
  { dstID := dstID, inputHostID := inputHostID, extentID := extentID,
    storeIDs := storeIDs, reason := reason, reasonContext := reasonContext,
    notificationType := notificationType }

/-- NewExtentCreatedEvent constructor. -/
def NewExtentCreatedEvent (dstID inHostID extentID : String)
    (storeIDs : List String) : ExtentCreatedEvent :=
  { dstID := dstID, inHostID := inHostID, extentID := extentID,
    storeIDs := storeIDs }

/-- NewExtentDownEvent constructor; `state` and `storeIDs` start at their
Go zero values (checkPreconditionState and nil). -/
def NewExtentDownEvent (sealSeq : Int) (dstID extentID : String) : ExtentDownEvent :=
  { state := checkPreconditionState, sealSeq := sealSeq, dstID := dstID,
    extentID := extentID, storeIDs := [] }

/-- NewRemoteZoneExtentCreatedEvent constructor. -/
def NewRemoteZoneExtentCreatedEvent (dstID extentID : String)
    (storeIDs : List String) : RemoteZoneExtentCreatedEvent :=
  { dstID := dstID, extentID := extentID, storeIDs := storeIDs }

/-- NewInputHostFailedEvent constructor. -/
def NewInputHostFailedEvent (hostUUID : String) : InputHostFailedEvent :=
  { hostUUID := hostUUID }

/-- NewStoreHostFailedEvent constructor. -/
def NewStoreHostFailedEvent (hostUUID : String) : StoreHostFailedEvent :=
  { hostUUID := hostUUID }

/-! ## ExtentDownEvent.Handle (the seal state machine) -/

/-- Result of `context.mm.ReadExtentStats`: the extent status and
`stats.GetExtent().GetStoreUUIDs()`. -/
structure ExtentStats where
  status : ExtentStatus
  storeUUIDs : List String
deriving DecidableEq

/-- Outcome of `context.mm.SealExtent`: success, an `*m.IllegalStateError`,
or any other error. -/
inductive SealMetaResult
  | ok
  | illegalStateError
  | otherError
deriving DecidableEq

/-- Environment of one ExtentDownEvent.Handle call: the answers every
external collaborator would give during this attempt. -/
structure EDEnv where
  /-- `context.mm.ReadExtentStats(dstID, extentID)`; `none` is an error. -/
  readExtentStats : Option ExtentStats
  /-- `context.rpm.ResolveUUID(StoreServiceName, s)`; `none` is an error. -/
  resolveUUID : String → Option String
  /-- result of the non-blocking `tokenBucket.TryConsume(1)`. -/
  tryConsume : Bool
  /-- result of the blocking `tokenBucket.Consume(1, 10*time.Second)`. -/
  consume10s : Bool
  /-- whether `sealExtentOnStore` succeeds on the given store UUID. -/
  sealOnStore : String → Bool
  /-- outcome of the metadata `context.mm.SealExtent(dstID, extentID)`. -/
  sealExtentMeta : SealMetaResult

/-- Return value and externally visible effects of one
ExtentDownEvent.Handle call.  `retErr = true` means the handler returned
`errRetryable`; `false` means it returned nil.  `state` and `storeIDs` are
the event's fields after the call (the event is mutated in place in Go). -/
structure EDOutcome where
  retErr : Bool
  state : Nat
  storeIDs : List String
  /-- stores on which a `sealExtentOnStore` RPC was issued. -/
  sealRPCs : List String
  /-- stores for which `invalidateStoreExtentCache` was called. -/
  invalidated : List String
  /-- whether the metadata `SealExtent` call was issued. -/
  metaSealCalled : Bool
  /-- whether `context.extentSeals.failed.Remove(extentID)` was called. -/
  failedRemoved : Bool
deriving DecidableEq

/-- The `stores` map of the sealExtent state: every store UUID of the
event that resolves to an address, with duplicate UUIDs collapsed
(the Go code keys the map by UUID).  Go map iteration order is
unspecified; `dedup` fixes one enumeration of the distinct keys, which is
adequate because every property proved below is order-insensitive. -/
def resolvableStores (env : EDEnv) (ids : List String) : List String :=
  (ids.filter (fun s => (env.resolveUUID s).isSome)).dedup

/-- `rateLimited` of the sealExtent state: non-blocking TryConsume on the
first attempt, blocking 10 s Consume on a retry. -/
def rateLimited (isRetry : Bool) (env : EDEnv) : Bool :=
  if isRetry then !env.consume10s else !env.tryConsume

/-- An EDOutcome for a return that issued no store RPC, no invalidation
and no metadata mutation. -/
def EDOutcome.bare (retErr : Bool) (state : Nat) (ids : List String) : EDOutcome :=
  { retErr := retErr, state := state, storeIDs := ids, sealRPCs := [],
    invalidated := [], metaSealCalled := false, failedRemoved := false }

/-- The updateMetadataState arm of ExtentDownEvent.Handle.  An
IllegalStateError from the metadata SealExtent is logged and treated like
success; any other error is errRetryable; on both non-error paths the
extent is removed from the failed set and the state becomes doneState
(after which the loop's doneState arm returns nil). -/
def ExtentDownEvent.updateMetadata (env : EDEnv)
    (ids sealRPCs invalidated : List String) : EDOutcome :=
  match env.sealExtentMeta with
  | SealMetaResult.otherError =>
    { retErr := true, state := updateMetadataState, storeIDs := ids,
      sealRPCs := sealRPCs, invalidated := invalidated,
      metaSealCalled := true, failedRemoved := false }
  | _ =>
    { retErr := false, state := doneState, storeIDs := ids,
      sealRPCs := sealRPCs, invalidated := invalidated,
      metaSealCalled := true, failedRemoved := true }

/-- The sealExtentState arm of ExtentDownEvent.Handle.  The parallel
fan-out (one goroutine per store, joined by the WaitGroup before the state
advances) is embedded as a filter over the resolvable stores: `nSuccess`
is the number of stores whose seal succeeded, and exactly those stores
have their store-extent cache invalidated. -/
def ExtentDownEvent.sealExtent (isRetry : Bool) (env : EDEnv)
    (ids : List String) : EDOutcome :=
  let stores := resolvableStores env ids
  if stores.length < 1 then
    EDOutcome.bare true sealExtentState ids
  else if rateLimited isRetry env then
    EDOutcome.bare true sealExtentState ids
  else
    let sealedStores := stores.filter env.sealOnStore
    if sealedStores.length < 1 then
      { retErr := true, state := sealExtentState, storeIDs := ids,
        sealRPCs := stores, invalidated := sealedStores,
        metaSealCalled := false, failedRemoved := false }
    else
      ExtentDownEvent.updateMetadata env ids stores sealedStores

/-- The checkPreconditionState arm of ExtentDownEvent.Handle.  A failed
ReadExtentStats is errRetryable; a non-OPEN extent is a nil return; an
OPEN extent has its storeUUIDs copied into the event and the loop falls
through to the sealExtent state (with isRetry = false, since the entry
state was checkPreconditionState). -/
def ExtentDownEvent.checkPrecondition (env : EDEnv) (ids : List String) : EDOutcome :=
  match env.readExtentStats with
  | none => EDOutcome.bare true checkPreconditionState ids
  | some stats =>
    if stats.status ≠ ExtentStatus.OPEN then
      EDOutcome.bare false checkPreconditionState ids
    else
      ExtentDownEvent.sealExtent false env stats.storeUUIDs

/-- ExtentDownEvent.Handle.  `isRetry := !(event.state == checkPreconditionState)`
is evaluated once at entry, so the sealExtentState entry arm runs with
isRetry = true and the checkPreconditionState arm falls through with
isRetry = false.  The doneState arm and the default arm both return nil
with no effects. -/
def ExtentDownEvent.Handle (env : EDEnv) (ev : ExtentDownEvent) : EDOutcome :=
  if ev.state = checkPreconditionState then
    ExtentDownEvent.checkPrecondition env ev.storeIDs
  else if ev.state = sealExtentState then
    ExtentDownEvent.sealExtent true env ev.storeIDs
  else if ev.state = updateMetadataState then
    ExtentDownEvent.updateMetadata env ev.storeIDs [] []
  else
    EDOutcome.bare false ev.state ev.storeIDs

/-! ## ExtentDownEvent.Done and the tracking sets -/

/-- `context.extentSeals`: the failed and inProgress concurrent sets,
keyed by extent UUID. -/
structure ExtentSealsState where
  failed : Finset String
  inProgress : Finset String
deriving DecidableEq

/-- ExtentDownEvent.Done.  The capacity `maxFailedExtentSealSetSize` is a
package constant declared outside event_handlers.go, so it is a parameter
here.  When err is non-nil the extent is Put into the failed set unless
`failed.Size() > maxSize`; in every case the extent is then removed from
the inProgress set. -/
def ExtentDownEvent.Done (maxSize : Nat) (seals : ExtentSealsState)
    (ev : ExtentDownEvent) (errNonNil : Bool) : ExtentSealsState :=
  let s1 :=
    if errNonNil then
      if seals.failed.card > maxSize then seals
      else { seals with failed := insert ev.extentID seals.failed }
    else seals
  { s1 with inProgress := s1.inProgress.erase ev.extentID }

example : (ExtentDownEvent.Done 1 ⟨{"x1"}, ∅⟩
    { state := 3, sealSeq := 0, dstID := "d", extentID := "x2", storeIDs := [] }
    true).failed.card = 2 := by decide

/-! ## ExtentCreatedEvent.Handle (input-host notification fan-out) -/

/-- Environment of ExtentCreatedEvent.Handle. -/
structure ECEnv where
  /-- `mm.ListExtentsByDstIDStatus(dstID, [OPEN])`, reduced to the
  `InputHostUUID` of each returned extent stat; `none` is an error. -/
  listExtents : Option (List String)
  /-- `context.eventPipeline.Add` result for the i-th Add call of this
  handler invocation (false = queue full). -/
  addOk : Nat → Bool

/-- Return value and effects of ExtentCreatedEvent.Handle: the
notification events offered to the pipeline in order, each with its Add
result; whether reconfigureAllConsumers was reached; and the (always nil)
return value. -/
structure ECOutcome where
  offers : List (InputHostNotificationEvent × Bool)
  reconfigureCalled : Bool
  retNil : Bool

/-- The hosts iterated by the `for k := range inHostIDs` loop: the
distinct input hosts of the listed OPEN extents (empty when the listing
failed, since then only the originating host is in the map), minus the
originating host, which was deleted from the map.  Go map iteration order
is unspecified; first-occurrence order is fixed here and every property
proved below is order-insensitive. -/
def otherInputHosts (env : ECEnv) (ev : ExtentCreatedEvent) : List String :=
  ((env.listExtents.getD []).dedup).filter (fun h => h != ev.inHostID)

/-- The CLIENT-notification offers of the fan-out loop, one per remaining
host; `i` is the index of the next `eventPipeline.Add` call. -/
def clientOffers (env : ECEnv) (ev : ExtentCreatedEvent) :
    Nat → List String → List (InputHostNotificationEvent × Bool)
  | _, [] => []
  | i, h :: rest =>
    (NewInputHostNotificationEvent ev.dstID h ev.extentID ev.storeIDs
       notifyExtentCreated ev.extentID NotificationType.CLIENT, env.addOk i)
      :: clientOffers env ev (i + 1) rest

/-- ExtentCreatedEvent.Handle.  The ALL notification to the originating
host is offered first (Add call 0); if that Add fails the handler logs and
returns nil at once, performing neither the CLIENT fan-out nor
reconfigureAllConsumers.  Otherwise one CLIENT notification is offered per
remaining distinct host (failed Adds are logged and the loop continues)
and reconfigureAllConsumers runs. -/
def ExtentCreatedEvent.Handle (env : ECEnv) (ev : ExtentCreatedEvent) : ECOutcome :=
  let allNotify := NewInputHostNotificationEvent ev.dstID ev.inHostID ev.extentID
    ev.storeIDs notifyExtentCreated ev.extentID NotificationType.ALL
  if env.addOk 0 = false then
    { offers := [(allNotify, false)], reconfigureCalled := false, retNil := true }
  else
    { offers := (allNotify, true) :: clientOffers env ev 1 (otherInputHosts env ev),
      reconfigureCalled := true, retNil := true }

/-! ## InputHostFailedEvent.Handle / StoreHostFailedEvent.Handle -/

/-- One element of the `[]*shared.ExtentStats` returned by the per-host
OPEN-extent listings, reduced to the fields createExtentDownEvents reads. -/
structure ExtentStatsEntry where
  originZone : String
  destinationUUID : String
  extentUUID : String
deriving DecidableEq

/-- Modelled from the spec: `common.IsRemoteZoneExtent` is declared
outside the sources under verification; per the glossary a remote-zone
extent is "an extent whose originZone differs from the local zone". -/
def IsRemoteZoneExtent (extentOriginZone localZone : String) : Bool :=
  extentOriginZone != localZone

/-- Modelled from the spec: `addExtentDownEvent(context, sealSeq, dstID,
extentID)` is declared outside the sources under verification; per §4.6 it
constructs an `ExtentDownEvent(sealSeq, destID, extentID)` and enqueues
it. -/
def addExtentDownEvent (sealSeq : Int) (dstID extentID : String) : ExtentDownEvent :=
  NewExtentDownEvent sealSeq dstID extentID

/-- createExtentDownEvents: one ExtentDownEvent with sealSeq 0 per listed
extent that is not a remote-zone extent. -/
def createExtentDownEvents (localZone : String)
    (stats : List ExtentStatsEntry) : List ExtentDownEvent :=
  stats.filterMap (fun st =>
    if IsRemoteZoneExtent st.originZone localZone then none
    else some (addExtentDownEvent 0 st.destinationUUID st.extentUUID))

/-- Environment of the host-failed handlers. -/
structure HostFailedEnv where
  localZone : String
  /-- `mm.ListExtentsByInputIDStatus(hostUUID, OPEN)`; `none` is an error. -/
  listExtentsByInputIDStatus : String → Option (List ExtentStatsEntry)
  /-- `mm.ListExtentsByStoreIDStatus(hostUUID, OPEN)`; `none` is an error. -/
  listExtentsByStoreIDStatus : String → Option (List ExtentStatsEntry)

/-- InputHostFailedEvent.Handle: the ExtentDownEvents enqueued, and the
(always nil, encoded as `true`) return value.  A listing error is logged
and nothing is enqueued. -/
def InputHostFailedEvent.Handle (env : HostFailedEnv)
    (ev : InputHostFailedEvent) : List ExtentDownEvent × Bool :=
  match env.listExtentsByInputIDStatus ev.hostUUID with
  | none => ([], true)
  | some stats => (createExtentDownEvents env.localZone stats, true)

/-- StoreHostFailedEvent.Handle: as the input-host variant, over the
store-host listing. -/
def StoreHostFailedEvent.Handle (env : HostFailedEnv)
    (ev : StoreHostFailedEvent) : List ExtentDownEvent × Bool :=
  match env.listExtentsByStoreIDStatus ev.hostUUID with
  | none => ([], true)
  | some stats => (createExtentDownEvents env.localZone stats, true)

/-! ## RemoteZoneExtentCreatedEvent.Handle -/

/-- The store RPCs issued by RemoteZoneExtentCreatedEvent.Handle. -/
inductive RZCall
  | remoteReplicate (dstID extentID storeUUID : String)
  | replicate (dstID extentID storeUUID sourceStoreUUID : String)
deriving DecidableEq

/-- Return value of RemoteZoneExtentCreatedEvent.Handle: nil, the
errRetryable sentinel, or some other error passed through. -/
inductive RZResult
  | ok
  | retryable
  | otherError
deriving DecidableEq

/-- Environment of RemoteZoneExtentCreatedEvent.Handle, keyed by store
UUID. -/
structure RZEnv where
  resolveUUID : String → Option String
  /-- whether `clientFactory.GetThriftStoreClient` succeeds. -/
  getThriftStoreClient : String → Bool
  /-- whether the `RemoteReplicateExtent` RPC succeeds. -/
  remoteReplicateOk : String → Bool
  /-- whether the `ReplicateExtent` RPC succeeds. -/
  replicateOk : String → Bool

/-- The secondary loop (`for i := 1; i < len(event.storeIDs); i++`): each
secondary is resolved (failure → errRetryable), a client is obtained
(failure → that error), and ReplicateExtent is invoked with
StoreUUID = primary (failure → that error); the loop stops at the first
failure.  `acc` carries the RPCs issued so far. -/
def RemoteZoneExtentCreatedEvent.replicateSecondaries (env : RZEnv)
    (ev : RemoteZoneExtentCreatedEvent) (primary : String) :
    List String → List RZCall → RZResult × List RZCall
  | [], acc => (RZResult.ok, acc)
  | s :: rest, acc =>
    if (env.resolveUUID s).isNone then (RZResult.retryable, acc)
    else if !(env.getThriftStoreClient s) then (RZResult.otherError, acc)
    else if !(env.replicateOk s) then
      (RZResult.otherError, acc ++ [RZCall.replicate ev.dstID ev.extentID s primary])
    else
      RemoteZoneExtentCreatedEvent.replicateSecondaries env ev primary rest
        (acc ++ [RZCall.replicate ev.dstID ev.extentID s primary])

/-- RemoteZoneExtentCreatedEvent.Handle.  `event.storeIDs[0]` is read
before any emptiness check, so an empty storeIDs list panics with an
index-out-of-range; the panic is the `none` branch of this total
embedding.  Otherwise the primary is resolved (failure → errRetryable), a
client obtained (failure → that error) and RemoteReplicateExtent invoked
(failure → that error, with no secondary contacted), then the secondary
loop runs. -/
def RemoteZoneExtentCreatedEvent.Handle (env : RZEnv)
    (ev : RemoteZoneExtentCreatedEvent) : Option (RZResult × List RZCall) :=
  match ev.storeIDs with
  | [] => none
  | primary :: rest =>
    if (env.resolveUUID primary).isNone then some (RZResult.retryable, [])
    else if !(env.getThriftStoreClient primary) then some (RZResult.otherError, [])
    else if !(env.remoteReplicateOk primary) then
      some (RZResult.otherError, [RZCall.remoteReplicate ev.dstID ev.extentID primary])
    else
      some (RemoteZoneExtentCreatedEvent.replicateSecondaries env ev primary rest
        [RZCall.remoteReplicate ev.dstID ev.extentID primary])

/-! ## triggerCacheRefreshForCG -/

/-- `context.resultCache.readOutputHosts(cgID, now)`: the cache-hit and
refresh flags, the entry's expiry, and the resultCacheEntry payload
fields that get copied on a rewrite. -/
structure ResultCacheReadResult where
  cacheHit : Bool
  refreshCache : Bool
  expiry : Int
  dstType : Int
  nExtents : Int
  hostIDs : List String
deriving DecidableEq

/-- The resultCacheParams written back by triggerCacheRefreshForCG. -/
structure resultCacheParams where
  dstType : Int
  nExtents : Int
  hostIDs : List String
  expiry : Int
deriving DecidableEq

/-- triggerCacheRefreshForCG, as a function of `now` (UnixNano) and the
cache read result; `some p` means `resultCache.write(cgID, p)` was
performed, `none` that nothing was written. -/
def triggerCacheRefreshForCG (now : Int)
    (result : ResultCacheReadResult) : Option resultCacheParams :=
  if !result.cacheHit || result.refreshCache then none
  else
    let deadline := now + resultCacheRefreshMaxWaitTime
    if result.expiry < deadline then none
    else
      some { dstType := result.dstType, nExtents := result.nExtents,
             hostIDs := result.hostIDs, expiry := now }

/-! ## Helper lemmas about the seal state machine -/

theorem sealExtent_of_noStores (b : Bool) (env : EDEnv) (ids : List String)
    (h : resolvableStores env ids = []) :
    ExtentDownEvent.sealExtent b env ids = EDOutcome.bare true sealExtentState ids := by
  simp [ExtentDownEvent.sealExtent, h]

theorem sealExtent_of_rateLimited (b : Bool) (env : EDEnv) (ids : List String)
    (h1 : resolvableStores env ids ≠ []) (h2 : rateLimited b env = true) :
    ExtentDownEvent.sealExtent b env ids = EDOutcome.bare true sealExtentState ids := by
  simp [ExtentDownEvent.sealExtent, h2, Nat.lt_one_iff, List.length_eq_zero, h1]

theorem sealExtent_of_noSuccess (b : Bool) (env : EDEnv) (ids : List String)
    (h1 : resolvableStores env ids ≠ []) (h2 : rateLimited b env = false)
    (h3 : (resolvableStores env ids).filter env.sealOnStore = []) :
    ExtentDownEvent.sealExtent b env ids =
      { retErr := true, state := sealExtentState, storeIDs := ids,
        sealRPCs := resolvableStores env ids, invalidated := [],
        metaSealCalled := false, failedRemoved := false } := by
  simp [ExtentDownEvent.sealExtent, h2, h3, Nat.lt_one_iff, List.length_eq_zero, h1]

theorem sealExtent_of_success (b : Bool) (env : EDEnv) (ids : List String)
    (h1 : resolvableStores env ids ≠ []) (h2 : rateLimited b env = false)
    (h3 : (resolvableStores env ids).filter env.sealOnStore ≠ []) :
    ExtentDownEvent.sealExtent b env ids =
      ExtentDownEvent.updateMetadata env ids (resolvableStores env ids)
        ((resolvableStores env ids).filter env.sealOnStore) := by
  simp [ExtentDownEvent.sealExtent, h2, h3, Nat.lt_one_iff, List.length_eq_zero, h1]

theorem updateMetadata_storeIDs (env : EDEnv) (ids l1 l2 : List String) :
    (ExtentDownEvent.updateMetadata env ids l1 l2).storeIDs = ids := by
  cases h : env.sealExtentMeta <;> simp [ExtentDownEvent.updateMetadata, h]

theorem updateMetadata_state_ge (env : EDEnv) (ids l1 l2 : List String) :
    updateMetadataState ≤ (ExtentDownEvent.updateMetadata env ids l1 l2).state := by
  cases h : env.sealExtentMeta <;>
    simp [ExtentDownEvent.updateMetadata, h, updateMetadataState, doneState]

theorem updateMetadata_metaSealCalled (env : EDEnv) (ids l1 l2 : List String) :
    (ExtentDownEvent.updateMetadata env ids l1 l2).metaSealCalled = true := by
  cases h : env.sealExtentMeta <;> simp [ExtentDownEvent.updateMetadata, h]

theorem updateMetadata_invalidated (env : EDEnv) (ids l1 l2 : List String) :
    (ExtentDownEvent.updateMetadata env ids l1 l2).invalidated = l2 := by
  cases h : env.sealExtentMeta <;> simp [ExtentDownEvent.updateMetadata, h]

theorem sealExtent_storeIDs (b : Bool) (env : EDEnv) (ids : List String) :
    (ExtentDownEvent.sealExtent b env ids).storeIDs = ids := by
  by_cases h1 : resolvableStores env ids = []
  · simp [sealExtent_of_noStores b env ids h1, EDOutcome.bare]
  · cases h2 : rateLimited b env
    · by_cases h3 : (resolvableStores env ids).filter env.sealOnStore = []
      · simp [sealExtent_of_noSuccess b env ids h1 h2 h3]
      · simp [sealExtent_of_success b env ids h1 h2 h3, updateMetadata_storeIDs]
    · simp [sealExtent_of_rateLimited b env ids h1 h2, EDOutcome.bare]

/-! ## Claim C1 -/

/-- The property claimed of the sealExtent state, over an arbitrary
environment. -/
def C1Statement (env : EDEnv) (ev : ExtentDownEvent) : Prop :=
  ExtentDownEvent.Handle env ev = ExtentDownEvent.sealExtent true env ev.storeIDs
  ∧ rateLimited true env = !env.consume10s
  ∧ rateLimited false env = !env.tryConsume
  ∧ (∀ ev2 : ExtentDownEvent, ev2.state = checkPreconditionState →
      ∀ stats, env.readExtentStats = some stats → stats.status = ExtentStatus.OPEN →
        ExtentDownEvent.Handle env ev2 = ExtentDownEvent.sealExtent false env stats.storeUUIDs)
  ∧ ∀ isRetry : Bool,
      (resolvableStores env ev.storeIDs = [] →
        (ExtentDownEvent.sealExtent isRetry env ev.storeIDs).retErr = true
        ∧ (ExtentDownEvent.sealExtent isRetry env ev.storeIDs).sealRPCs = [])
      ∧ (resolvableStores env ev.storeIDs ≠ [] → rateLimited isRetry env = true →
        (ExtentDownEvent.sealExtent isRetry env ev.storeIDs).retErr = true
        ∧ (ExtentDownEvent.sealExtent isRetry env ev.storeIDs).sealRPCs = [])
      ∧ (resolvableStores env ev.storeIDs ≠ [] → rateLimited isRetry env = false →
        (ExtentDownEvent.sealExtent isRetry env ev.storeIDs).sealRPCs
            = resolvableStores env ev.storeIDs
        ∧ (∀ s, s ∈ (ExtentDownEvent.sealExtent isRetry env ev.storeIDs).invalidated
            ↔ s ∈ resolvableStores env ev.storeIDs ∧ env.sealOnStore s = true)
        ∧ ((resolvableStores env ev.storeIDs).filter env.sealOnStore = [] →
            (ExtentDownEvent.sealExtent isRetry env ev.storeIDs).retErr = true
            ∧ (ExtentDownEvent.sealExtent isRetry env ev.storeIDs).metaSealCalled = false)
        ∧ ((resolvableStores env ev.storeIDs).filter env.sealOnStore ≠ [] →
            (ExtentDownEvent.sealExtent isRetry env ev.storeIDs).metaSealCalled = true
            ∧ updateMetadataState ≤ (ExtentDownEvent.sealExtent isRetry env ev.storeIDs).state))

/-- C1: in the sealExtent state of ExtentDownEvent.Handle, zero resolvable
stores yields errRetryable; a denied rate-limiter token (TryConsume when
the entry state was checkPrecondition, blocking 10 s Consume otherwise)
yields errRetryable; the seal RPC is issued to every resolvable store and
if fewer than one succeeds the handler returns errRetryable; the
store-extent cache is invalidated exactly for the stores whose seal
succeeded, before the handler advances to updateMetadata. -/
theorem c1_extentDown_sealExtent (env : EDEnv) (ev : ExtentDownEvent)
    (hst : ev.state = sealExtentState) : C1Statement env ev := by
  refine ⟨?_, rfl, rfl, ?_, ?_⟩
  · simp [ExtentDownEvent.Handle, hst, sealExtentState, checkPreconditionState]
  · intro ev2 h2 stats hr ho
    simp [ExtentDownEvent.Handle, h2, ExtentDownEvent.checkPrecondition, hr, ho]
  · intro isRetry
    refine ⟨?_, ?_, ?_⟩
    · intro h
      simp [sealExtent_of_noStores isRetry env ev.storeIDs h, EDOutcome.bare]
    · intro h1 h2
      simp [sealExtent_of_rateLimited isRetry env ev.storeIDs h1 h2, EDOutcome.bare]
    · intro h1 h2
      by_cases h3 : (resolvableStores env ev.storeIDs).filter env.sealOnStore = []
      · rw [sealExtent_of_noSuccess isRetry env ev.storeIDs h1 h2 h3]
        refine ⟨rfl, ?_, fun _ => ⟨rfl, rfl⟩, fun hc => absurd h3 hc⟩
        intro s
        simp only [List.not_mem_nil, false_iff]
        intro hs
        exact (List.ne_nil_of_mem (List.mem_filter.mpr ⟨hs.1, hs.2⟩)) h3
      · rw [sealExtent_of_success isRetry env ev.storeIDs h1 h2 h3]
        refine ⟨?_, ?_, fun hc => absurd hc h3, ?_⟩
        · cases h : env.sealExtentMeta <;> simp [ExtentDownEvent.updateMetadata, h]
        · intro s
          rw [updateMetadata_invalidated]
          exact List.mem_filter
        · intro _
          exact ⟨updateMetadata_metaSealCalled env _ _ _, updateMetadata_state_ge env _ _ _⟩

/-! ## Claim C2 -/

/-- The property claimed of the checkPrecondition state. -/
def C2Statement (env : EDEnv) (ev : ExtentDownEvent) : Prop :=
  (env.readExtentStats = none →
    ExtentDownEvent.Handle env ev = EDOutcome.bare true checkPreconditionState ev.storeIDs)
  ∧ (∀ stats, env.readExtentStats = some stats → stats.status ≠ ExtentStatus.OPEN →
    ExtentDownEvent.Handle env ev = EDOutcome.bare false checkPreconditionState ev.storeIDs)
  ∧ (∀ stats, env.readExtentStats = some stats → stats.status = ExtentStatus.OPEN →
    ExtentDownEvent.Handle env ev = ExtentDownEvent.sealExtent false env stats.storeUUIDs
    ∧ (ExtentDownEvent.Handle env ev).storeIDs = stats.storeUUIDs)

/-- C2: in the checkPrecondition state of ExtentDownEvent.Handle, a failed
ReadExtentStats yields errRetryable; a non-OPEN extent yields a nil return
with no store RPC and no metadata mutation (EDOutcome.bare records empty
sealRPCs/invalidated and metaSealCalled = false); an OPEN extent has its
storeUUIDs copied into the event and the handler proceeds with the
sealExtent state. -/
theorem c2_extentDown_checkPrecondition (env : EDEnv) (ev : ExtentDownEvent)
    (hst : ev.state = checkPreconditionState) : C2Statement env ev := by
  refine ⟨?_, ?_, ?_⟩
  · intro h
    simp [ExtentDownEvent.Handle, hst, ExtentDownEvent.checkPrecondition, h]
  · intro stats hr ho
    simp [ExtentDownEvent.Handle, hst, ExtentDownEvent.checkPrecondition, hr, ho]
  · intro stats hr ho
    refine ⟨?_, ?_⟩
    · simp [ExtentDownEvent.Handle, hst, ExtentDownEvent.checkPrecondition, hr, ho]
    · simp [ExtentDownEvent.Handle, hst, ExtentDownEvent.checkPrecondition, hr, ho,
        sealExtent_storeIDs]

/-! ## Claim C3 -/

/-- The property claimed of the updateMetadata state. -/
def C3Statement (env : EDEnv) (ev : ExtentDownEvent) : Prop :=
  ExtentDownEvent.Handle env ev = ExtentDownEvent.updateMetadata env ev.storeIDs [] []
  ∧ (env.sealExtentMeta = SealMetaResult.illegalStateError →
      (ExtentDownEvent.Handle env ev).retErr = false
      ∧ (ExtentDownEvent.Handle env ev).failedRemoved = true
      ∧ (ExtentDownEvent.Handle env ev).state = doneState)
  ∧ (env.sealExtentMeta = SealMetaResult.ok →
      (ExtentDownEvent.Handle env ev).retErr = false
      ∧ (ExtentDownEvent.Handle env ev).failedRemoved = true
      ∧ (ExtentDownEvent.Handle env ev).state = doneState)
  ∧ (env.sealExtentMeta = SealMetaResult.otherError →
      (ExtentDownEvent.Handle env ev).retErr = true
      ∧ (ExtentDownEvent.Handle env ev).failedRemoved = false)

/-- C3: in the updateMetadata state of ExtentDownEvent.Handle, an
IllegalStateError from the metadata SealExtent is treated like success
(nil return, no errRetryable); any other SealExtent error yields
errRetryable; on success or on the ignored IllegalStateError the extent is
removed from the failed set and the state advances to done. -/
theorem c3_extentDown_updateMetadata (env : EDEnv) (ev : ExtentDownEvent)
    (hst : ev.state = updateMetadataState) : C3Statement env ev := by
  have hlink : ExtentDownEvent.Handle env ev
      = ExtentDownEvent.updateMetadata env ev.storeIDs [] [] := by
    simp [ExtentDownEvent.Handle, hst, updateMetadataState, checkPreconditionState,
      sealExtentState]
  refine ⟨hlink, ?_, ?_, ?_⟩ <;> intro h <;>
    simp [hlink, ExtentDownEvent.updateMetadata, h]

/-! ## Claim C4 -/

/-- The amended property of ExtentDownEvent.Done: on a non-nil error the
extent is inserted into the failed set iff the set's size was at most
maxFailedExtentSealSetSize (the Go check is `Size() > max`), so the size
is bounded by maxFailedExtentSealSetSize + 1 rather than by
maxFailedExtentSealSetSize; and on every call the extent is removed from
the inProgress set. -/
def C4Amended (maxSize : Nat) (seals : ExtentSealsState) (ev : ExtentDownEvent)
    (errNonNil : Bool) : Prop :=
  (seals.failed.card ≤ maxSize →
    (ExtentDownEvent.Done maxSize seals ev errNonNil).failed.card ≤ maxSize + 1)
  ∧ ev.extentID ∉ (ExtentDownEvent.Done maxSize seals ev errNonNil).inProgress
  ∧ (ExtentDownEvent.Done maxSize seals ev errNonNil).inProgress
      = seals.inProgress.erase ev.extentID
  ∧ (errNonNil = false →
      (ExtentDownEvent.Done maxSize seals ev errNonNil).failed = seals.failed)
  ∧ (errNonNil = true →
      (maxSize < seals.failed.card →
        (ExtentDownEvent.Done maxSize seals ev errNonNil).failed = seals.failed)
      ∧ (seals.failed.card ≤ maxSize →
        (ExtentDownEvent.Done maxSize seals ev errNonNil).failed
          = insert ev.extentID seals.failed))

/-- C4 (counterexample): with capacity 1 and a failed set already holding
exactly one extent (so `Size() > max` is false), a failed seal of a new
extent is still inserted, and the failed set ends with 2 > 1 elements —
the claimed bound `|FailedSet| ≤ maxFailedExtentSealSetSize` does not hold
after the call. -/
theorem c4_counterexample :
    (({ failed := {"x1"}, inProgress := ∅ } : ExtentSealsState)).failed.card ≤ 1
    ∧ 1 < (ExtentDownEvent.Done 1 { failed := {"x1"}, inProgress := ∅ }
        { state := doneState, sealSeq := 0, dstID := "d", extentID := "x2",
          storeIDs := [] } true).failed.card := by
  constructor
  · decide
  · decide

/-- C4 (amended): ExtentDownEvent.Done inserts the extent into the failed
set exactly when err is non-nil and the set's size is at most the
capacity, bounding the size by capacity + 1, and always removes the extent
from the inProgress set. -/
theorem c4_extentDown_done (maxSize : Nat) (seals : ExtentSealsState)
    (ev : ExtentDownEvent) (errNonNil : Bool) :
    C4Amended maxSize seals ev errNonNil := by
  unfold C4Amended ExtentDownEvent.Done
  cases errNonNil
  · simp [Finset.not_mem_erase]
    omega
  · by_cases hgt : seals.failed.card > maxSize
    · simp only [if_pos hgt, if_pos rfl]
      refine ⟨fun hle => absurd hgt (by omega), ?_⟩
      simp [Finset.not_mem_erase]
      omega
    · simp only [if_neg hgt, if_pos rfl]
      refine ⟨fun _ => ?_, ?_⟩
      · exact le_trans (Finset.card_insert_le _ _) (by omega)
      · simp [Finset.not_mem_erase]
        omega

/-! ## Concrete inputs for the witnesses of C1-C4 -/

/-- A concrete environment: the extent is OPEN on stores s1 and s2, only
s1 resolves, the token bucket grants, the seal succeeds on s1 and the
metadata write succeeds. -/
def edEnvA : EDEnv :=
  { readExtentStats := some { status := ExtentStatus.OPEN, storeUUIDs := ["s1", "s2"] },
    resolveUUID := fun s => if s == "s1" then some "addr1" else none,
    tryConsume := true,
    consume10s := true,
    sealOnStore := fun s => s == "s1",
    sealExtentMeta := SealMetaResult.ok }

def edEvSeal : ExtentDownEvent :=
  { state := sealExtentState, sealSeq := 0, dstID := "d1", extentID := "e1",
    storeIDs := ["s1", "s2"] }

def edEvCheck : ExtentDownEvent :=
  { state := checkPreconditionState, sealSeq := 0, dstID := "d1", extentID := "e1",
    storeIDs := [] }

def edEvMeta : ExtentDownEvent :=
  { state := updateMetadataState, sealSeq := 0, dstID := "d1", extentID := "e1",
    storeIDs := ["s1", "s2"] }

theorem c1_extentDown_sealExtent_witness :
    edEvSeal.state = sealExtentState ∧ C1Statement edEnvA edEvSeal :=
  ⟨rfl, c1_extentDown_sealExtent edEnvA edEvSeal rfl⟩

theorem c2_extentDown_checkPrecondition_witness :
    edEvCheck.state = checkPreconditionState ∧ C2Statement edEnvA edEvCheck :=
  ⟨rfl, c2_extentDown_checkPrecondition edEnvA edEvCheck rfl⟩

theorem c3_extentDown_updateMetadata_witness :
    edEvMeta.state = updateMetadataState ∧ C3Statement edEnvA edEvMeta :=
  ⟨rfl, c3_extentDown_updateMetadata edEnvA edEvMeta rfl⟩

theorem c4_extentDown_done_witness :
    C4Amended 1 { failed := ∅, inProgress := {"e1"} } edEvSeal true :=
  c4_extentDown_done 1 { failed := ∅, inProgress := {"e1"} } edEvSeal true

/-! ## Lemmas about the ExtentCreatedEvent fan-out -/

theorem clientOffers_hosts (env : ECEnv) (ev : ExtentCreatedEvent) :
    ∀ (i : Nat) (l : List String),
      (clientOffers env ev i l).map (fun o => (o.1.inputHostID, o.1.notificationType))
        = l.map (fun h => (h, NotificationType.CLIENT)) := by
  intro i l
  induction l generalizing i with
  | nil => rfl
  | cons h rest ih =>
    simp [clientOffers, NewInputHostNotificationEvent, ih (i + 1)]

theorem clientOffers_filter_not_mem (env : ECEnv) (ev : ExtentCreatedEvent)
    (x : String) :
    ∀ (i : Nat) (l : List String), x ∉ l →
      (clientOffers env ev i l).filter (fun o => o.1.inputHostID == x) = [] := by
  intro i l
  induction l generalizing i with
  | nil => intro _; rfl
  | cons h rest ih =>
    intro hx
    have hne : h ≠ x := fun e => hx (e ▸ List.mem_cons_self h rest)
    simp only [clientOffers, List.filter_cons, NewInputHostNotificationEvent]
    rw [if_neg (by simp [hne])]
    exact ih (i + 1) (fun hmem => hx (List.mem_cons_of_mem h hmem))

theorem clientOffers_filter_mem (env : ECEnv) (ev : ExtentCreatedEvent)
    (x : String) :
    ∀ (i : Nat) (l : List String), l.Nodup → x ∈ l →
      ∃ j, (clientOffers env ev i l).filter (fun o => o.1.inputHostID == x)
        = [(NewInputHostNotificationEvent ev.dstID x ev.extentID ev.storeIDs
             notifyExtentCreated ev.extentID NotificationType.CLIENT, env.addOk j)] := by
  intro i l
  induction l generalizing i with
  | nil => intro _ hx; exact absurd hx (List.not_mem_nil x)
  | cons h rest ih =>
    intro hnd hx
    rcases List.mem_cons.mp hx with he | hmem
    · refine ⟨i, ?_⟩
      simp only [clientOffers, List.filter_cons, NewInputHostNotificationEvent]
      rw [if_pos (by simp [he.symm])]
      rw [clientOffers_filter_not_mem env ev x (i + 1) rest
        (he ▸ (List.nodup_cons.mp hnd).1)]
      rw [he]
    · have hne : h ≠ x := fun e =>
        (List.nodup_cons.mp hnd).1 (e ▸ hmem)
      obtain ⟨j, hj⟩ := ih (i + 1) (List.nodup_cons.mp hnd).2 hmem
      refine ⟨j, ?_⟩
      simp only [clientOffers, List.filter_cons, NewInputHostNotificationEvent]
      rw [if_neg (by simp [hne])]
      exact hj

theorem clientOffers_filter_length_le (env : ECEnv) (ev : ExtentCreatedEvent)
    (x : String) (i : Nat) (l : List String) (hnd : l.Nodup) :
    ((clientOffers env ev i l).filter (fun o => o.1.inputHostID == x)).length ≤ 1 := by
  by_cases hx : x ∈ l
  · obtain ⟨j, hj⟩ := clientOffers_filter_mem env ev x i l hnd hx
    rw [hj]
    exact le_refl 1
  · rw [clientOffers_filter_not_mem env ev x i l hx]
    exact Nat.zero_le 1

theorem clientOffers_accepted (env : ECEnv) (ev : ExtentCreatedEvent)
    (hadd : ∀ i, env.addOk i = true) :
    ∀ (i : Nat) (l : List String) (o : InputHostNotificationEvent × Bool),
      o ∈ clientOffers env ev i l → o.2 = true := by
  intro i l
  induction l generalizing i with
  | nil => intro o ho; exact absurd ho (List.not_mem_nil o)
  | cons h rest ih =>
    intro o ho
    rcases List.mem_cons.mp ho with he | hmem
    · rw [he]
      exact hadd i
    · exact ih (i + 1) o hmem

theorem inHostID_not_mem_otherInputHosts (env : ECEnv) (ev : ExtentCreatedEvent) :
    ev.inHostID ∉ otherInputHosts env ev := by
  intro hmem
  have := (List.mem_filter.mp hmem).2
  simp at this

theorem mem_otherInputHosts (env : ECEnv) (ev : ExtentCreatedEvent)
    (hs : List String) (hlist : env.listExtents = some hs) (h : String)
    (hmem : h ∈ hs) (hne : h ≠ ev.inHostID) : h ∈ otherInputHosts env ev := by
  unfold otherInputHosts
  rw [hlist]
  exact List.mem_filter.mpr ⟨List.mem_dedup.mpr hmem, by simp [hne]⟩

theorem otherInputHosts_nodup (env : ECEnv) (ev : ExtentCreatedEvent) :
    (otherInputHosts env ev).Nodup :=
  List.Nodup.filter _ (List.nodup_dedup _)

/-! ## Claim C5 -/

/-- The claimed fan-out property of ExtentCreatedEvent.Handle, over the
input hosts `hs` of the listed OPEN extents. -/
def C5Statement (env : ECEnv) (ev : ExtentCreatedEvent) (hs : List String) : Prop :=
  ((ExtentCreatedEvent.Handle env ev).offers.filter
      (fun o => o.1.inputHostID == ev.inHostID)).map (fun o => o.1.notificationType)
    = [NotificationType.ALL]
  ∧ (∀ h, h ∈ hs → h ≠ ev.inHostID →
      ((ExtentCreatedEvent.Handle env ev).offers.filter
        (fun o => o.1.inputHostID == h)).map (fun o => o.1.notificationType)
      = [NotificationType.CLIENT])
  ∧ (∀ h, ((ExtentCreatedEvent.Handle env ev).offers.filter
        (fun o => o.1.inputHostID == h)).length ≤ 1)
  ∧ (∀ o ∈ (ExtentCreatedEvent.Handle env ev).offers, o.2 = true)

/-- C5: when the OPEN-extent listing succeeds (and the event pipeline
accepts the offers), ExtentCreatedEvent.Handle enqueues exactly one ALL
notification to the originating input host and exactly one CLIENT
notification to every other distinct input host of the listed OPEN
extents; no host gets both kinds and no host gets two notifications. -/
theorem c5_extentCreated_fanout (env : ECEnv) (ev : ExtentCreatedEvent)
    (hs : List String) (hlist : env.listExtents = some hs)
    (hadd : ∀ i, env.addOk i = true) : C5Statement env ev hs := by
  have hhandle : ExtentCreatedEvent.Handle env ev =
      { offers := (NewInputHostNotificationEvent ev.dstID ev.inHostID ev.extentID
          ev.storeIDs notifyExtentCreated ev.extentID NotificationType.ALL, true)
          :: clientOffers env ev 1 (otherInputHosts env ev),
        reconfigureCalled := true, retNil := true } := by
    simp [ExtentCreatedEvent.Handle, hadd 0]
  refine ⟨?_, ?_, ?_, ?_⟩
  · rw [hhandle]
    simp only [List.filter_cons]
    rw [if_pos (by simp [NewInputHostNotificationEvent])]
    rw [clientOffers_filter_not_mem env ev ev.inHostID 1 (otherInputHosts env ev)
      (inHostID_not_mem_otherInputHosts env ev)]
    rfl
  · intro h hmem hne
    rw [hhandle]
    simp only [List.filter_cons]
    rw [if_neg (by simp [NewInputHostNotificationEvent]; exact fun e => hne e.symm)]
    obtain ⟨j, hj⟩ := clientOffers_filter_mem env ev h 1 (otherInputHosts env ev)
      (otherInputHosts_nodup env ev) (mem_otherInputHosts env ev hs hlist h hmem hne)
    rw [hj]
    rfl
  · intro h
    rw [hhandle]
    simp only [List.filter_cons]
    by_cases hcase : h = ev.inHostID
    · rw [if_pos (by simp [NewInputHostNotificationEvent, hcase])]
      rw [clientOffers_filter_not_mem env ev h 1 (otherInputHosts env ev)
        (hcase ▸ inHostID_not_mem_otherInputHosts env ev)]
      exact le_refl 1
    · rw [if_neg (by simp [NewInputHostNotificationEvent]; exact fun e => hcase e.symm)]
      exact clientOffers_filter_length_le env ev h 1 (otherInputHosts env ev)
        (otherInputHosts_nodup env ev)
  · intro o ho
    rw [hhandle] at ho
    rcases List.mem_cons.mp ho with he | hmem
    · rw [he]
    · exact clientOffers_accepted env ev hadd 1 (otherInputHosts env ev) o hmem

def ecEnvA : ECEnv := { listExtents := some ["h1", "h2"], addOk := fun _ => true }

def ecEvA : ExtentCreatedEvent :=
  { dstID := "d1", inHostID := "h1", extentID := "e1", storeIDs := ["s1"] }

theorem c5_extentCreated_fanout_witness :
    ecEnvA.listExtents = some ["h1", "h2"] ∧ (∀ i, ecEnvA.addOk i = true)
    ∧ C5Statement ecEnvA ecEvA ["h1", "h2"] :=
  ⟨rfl, fun _ => rfl,
    c5_extentCreated_fanout ecEnvA ecEvA ["h1", "h2"] rfl (fun _ => rfl)⟩

/-! ## Claim C6 -/

def c6env : ECEnv := { listExtents := some ["h2"], addOk := fun _ => false }

def c6ev : ExtentCreatedEvent :=
  { dstID := "d1", inHostID := "h1", extentID := "e1", storeIDs := [] }

/-- C6 (counterexample): with the event queue full (every Add returns
false) and one other input host h2 serving an OPEN extent, the failed ALL
offer makes Handle return at once: no CLIENT notification is offered to h2
and reconfigureAllConsumers is never reached, contradicting the claim that
processing continues past a failed ALL enqueue. -/
theorem c6_counterexample :
    (ExtentCreatedEvent.Handle c6env c6ev).reconfigureCalled = false
    ∧ ((ExtentCreatedEvent.Handle c6env c6ev).offers.filter
        (fun o => o.1.notificationType == NotificationType.CLIENT)).length = 0 := by
  constructor
  · rfl
  · rfl

/-- The amended property: queue-full on a CLIENT Add is logged and the
fan-out continues (every other distinct host is still offered its CLIENT
notification and reconfigureAllConsumers runs), and the handler always
returns success; but queue-full on the initial ALL Add makes the handler
return success immediately with no CLIENT offers and no
reconfigureAllConsumers call. -/
def C6Amended (env : ECEnv) (ev : ExtentCreatedEvent) : Prop :=
  (ExtentCreatedEvent.Handle env ev).retNil = true
  ∧ (env.addOk 0 = false →
      (ExtentCreatedEvent.Handle env ev).offers
        = [(NewInputHostNotificationEvent ev.dstID ev.inHostID ev.extentID ev.storeIDs
            notifyExtentCreated ev.extentID NotificationType.ALL, false)]
      ∧ (ExtentCreatedEvent.Handle env ev).reconfigureCalled = false)
  ∧ (env.addOk 0 = true →
      (ExtentCreatedEvent.Handle env ev).reconfigureCalled = true
      ∧ (ExtentCreatedEvent.Handle env ev).offers.map
          (fun o => (o.1.inputHostID, o.1.notificationType))
        = (ev.inHostID, NotificationType.ALL)
            :: (otherInputHosts env ev).map (fun h => (h, NotificationType.CLIENT)))

/-- C6 (amended): failed CLIENT Adds do not stop the fan-out, but a failed
ALL Add to the originating host ends the handler early with no CLIENT
offers and no reconfigureAllConsumers; the handler returns success in
either case. -/
theorem c6_extentCreated_queueFull (env : ECEnv) (ev : ExtentCreatedEvent) :
    C6Amended env ev := by
  refine ⟨?_, ?_, ?_⟩
  · by_cases h : env.addOk 0 = false <;>
      simp [ExtentCreatedEvent.Handle, h]
  · intro h
    simp [ExtentCreatedEvent.Handle, h, NewInputHostNotificationEvent]
  · intro h
    refine ⟨by simp [ExtentCreatedEvent.Handle, h], ?_⟩
    simp only [ExtentCreatedEvent.Handle, h]
    simp [clientOffers_hosts env ev 1 (otherInputHosts env ev),
      NewInputHostNotificationEvent]

theorem c6_extentCreated_queueFull_witness : C6Amended c6env c6ev :=
  c6_extentCreated_queueFull c6env c6ev

/-! ## Claim C7 -/

theorem createExtentDownEvents_eq (lz : String) (stats : List ExtentStatsEntry) :
    createExtentDownEvents lz stats
      = (stats.filter (fun st => !(IsRemoteZoneExtent st.originZone lz))).map
          (fun st => NewExtentDownEvent 0 st.destinationUUID st.extentUUID) := by
  induction stats with
  | nil => rfl
  | cons st rest ih =>
    simp only [createExtentDownEvents, addExtentDownEvent] at ih ⊢
    cases h : IsRemoteZoneExtent st.originZone lz <;>
      simp [List.filterMap_cons, List.filter_cons, h, ih]

/-- The claimed property of the host-failed handlers. -/
def C7Statement (env : HostFailedEnv) (evIn : InputHostFailedEvent)
    (evSt : StoreHostFailedEvent) : Prop :=
  (env.listExtentsByInputIDStatus evIn.hostUUID = none →
    InputHostFailedEvent.Handle env evIn = ([], true))
  ∧ (env.listExtentsByStoreIDStatus evSt.hostUUID = none →
    StoreHostFailedEvent.Handle env evSt = ([], true))
  ∧ (∀ stats, env.listExtentsByInputIDStatus evIn.hostUUID = some stats →
    InputHostFailedEvent.Handle env evIn
      = (createExtentDownEvents env.localZone stats, true))
  ∧ (∀ stats, env.listExtentsByStoreIDStatus evSt.hostUUID = some stats →
    StoreHostFailedEvent.Handle env evSt
      = (createExtentDownEvents env.localZone stats, true))
  ∧ (∀ stats, createExtentDownEvents env.localZone stats
      = (stats.filter (fun st => !(IsRemoteZoneExtent st.originZone env.localZone))).map
          (fun st => NewExtentDownEvent 0 st.destinationUUID st.extentUUID))
  ∧ (∀ stats e, e ∈ createExtentDownEvents env.localZone stats → e.sealSeq = 0)

/-- C7: on a successful OPEN-extent listing both host-failed handlers
enqueue exactly one ExtentDownEvent with sealSeq 0 and the extent's
destination and extent UUIDs per listed non-remote-zone extent (remote-zone
extents are skipped); on a listing failure they enqueue nothing and
return success. -/
theorem c7_hostFailed_extentDownEvents (env : HostFailedEnv)
    (evIn : InputHostFailedEvent) (evSt : StoreHostFailedEvent) :
    C7Statement env evIn evSt := by
  refine ⟨?_, ?_, ?_, ?_, fun stats => createExtentDownEvents_eq env.localZone stats, ?_⟩
  · intro h
    simp [InputHostFailedEvent.Handle, h]
  · intro h
    simp [StoreHostFailedEvent.Handle, h]
  · intro stats h
    simp [InputHostFailedEvent.Handle, h]
  · intro stats h
    simp [StoreHostFailedEvent.Handle, h]
  · intro stats e he
    rw [createExtentDownEvents_eq] at he
    obtain ⟨st, _, hst⟩ := List.mem_map.mp he
    rw [← hst]
    rfl

def hfEnvA : HostFailedEnv :=
  { localZone := "zone1",
    listExtentsByInputIDStatus := fun h =>
      if h == "in1" then
        some [{ originZone := "zone1", destinationUUID := "dst1", extentUUID := "ext1" },
              { originZone := "zone2", destinationUUID := "dst1", extentUUID := "ext2" }]
      else none,
    listExtentsByStoreIDStatus := fun _ => none }

theorem c7_hostFailed_extentDownEvents_witness :
    C7Statement hfEnvA (NewInputHostFailedEvent "in1") (NewStoreHostFailedEvent "st1") :=
  c7_hostFailed_extentDownEvents hfEnvA
    (NewInputHostFailedEvent "in1") (NewStoreHostFailedEvent "st1")

/-! ## Lemmas about the remote-zone replication loop -/

theorem replicateSecondaries_calls (env : RZEnv) (ev : RemoteZoneExtentCreatedEvent)
    (primary : String) :
    ∀ (l : List String) (acc : List RZCall) (c : RZCall),
      c ∈ (RemoteZoneExtentCreatedEvent.replicateSecondaries env ev primary l acc).2 →
      c ∈ acc ∨ ∃ s ∈ l, c = RZCall.replicate ev.dstID ev.extentID s primary := by
  intro l
  induction l with
  | nil =>
    intro acc c hc
    exact Or.inl hc
  | cons s rest ih =>
    intro acc c hc
    simp only [RemoteZoneExtentCreatedEvent.replicateSecondaries] at hc
    split_ifs at hc
    · exact Or.inl hc
    · exact Or.inl hc
    · rcases List.mem_append.mp hc with h | h
      · exact Or.inl h
      · exact Or.inr ⟨s, List.mem_cons_self s rest, List.mem_singleton.mp h⟩
    · rcases ih (acc ++ [RZCall.replicate ev.dstID ev.extentID s primary]) c hc with h | h
      · rcases List.mem_append.mp h with h2 | h2
        · exact Or.inl h2
        · exact Or.inr ⟨s, List.mem_cons_self s rest, List.mem_singleton.mp h2⟩
      · obtain ⟨t, hmem, he⟩ := h
        exact Or.inr ⟨t, List.mem_cons_of_mem s hmem, he⟩

theorem replicateSecondaries_all_ok (env : RZEnv) (ev : RemoteZoneExtentCreatedEvent)
    (primary : String) :
    ∀ (l : List String) (acc : List RZCall),
      (∀ s ∈ l, (env.resolveUUID s).isSome = true ∧ env.getThriftStoreClient s = true
        ∧ env.replicateOk s = true) →
      RemoteZoneExtentCreatedEvent.replicateSecondaries env ev primary l acc
        = (RZResult.ok, acc ++ l.map (fun s => RZCall.replicate ev.dstID ev.extentID s primary)) := by
  intro l
  induction l with
  | nil =>
    intro acc _
    simp [RemoteZoneExtentCreatedEvent.replicateSecondaries]
  | cons s rest ih =>
    intro acc hall
    obtain ⟨h1, h2, h3⟩ := hall s (List.mem_cons_self s rest)
    obtain ⟨a, ha⟩ := Option.isSome_iff_exists.mp h1
    rw [RemoteZoneExtentCreatedEvent.replicateSecondaries]
    rw [ha]
    simp only [Option.isNone_some, Bool.false_eq_true, if_false, h2, h3,
      Bool.not_true, if_false]
    rw [ih (acc ++ [RZCall.replicate ev.dstID ev.extentID s primary])
      (fun t ht => hall t (List.mem_cons_of_mem s ht))]
    simp

theorem replicateSecondaries_fail_at (env : RZEnv) (ev : RemoteZoneExtentCreatedEvent)
    (primary : String) (s : String)
    (hs1 : (env.resolveUUID s).isSome = true) (hs2 : env.getThriftStoreClient s = true)
    (hs3 : env.replicateOk s = false) :
    ∀ (pre post : List String) (acc : List RZCall),
      (∀ t ∈ pre, (env.resolveUUID t).isSome = true ∧ env.getThriftStoreClient t = true
        ∧ env.replicateOk t = true) →
      RemoteZoneExtentCreatedEvent.replicateSecondaries env ev primary (pre ++ s :: post) acc
        = (RZResult.otherError,
           acc ++ pre.map (fun t => RZCall.replicate ev.dstID ev.extentID t primary)
             ++ [RZCall.replicate ev.dstID ev.extentID s primary]) := by
  intro pre
  induction pre with
  | nil =>
    intro post acc _
    obtain ⟨a, ha⟩ := Option.isSome_iff_exists.mp hs1
    rw [List.nil_append, RemoteZoneExtentCreatedEvent.replicateSecondaries, ha]
    simp [hs2, hs3]
  | cons t rest ih =>
    intro post acc hall
    obtain ⟨h1, h2, h3⟩ := hall t (List.mem_cons_self t rest)
    obtain ⟨a, ha⟩ := Option.isSome_iff_exists.mp h1
    rw [List.cons_append, RemoteZoneExtentCreatedEvent.replicateSecondaries, ha]
    simp only [Option.isNone_some, Bool.false_eq_true, if_false, h2, h3,
      Bool.not_true, if_false]
    rw [ih post (acc ++ [RZCall.replicate ev.dstID ev.extentID t primary])
      (fun u hu => hall u (List.mem_cons_of_mem t hu))]
    simp

/-! ## Claim C8 -/

/-- The claimed property of RemoteZoneExtentCreatedEvent.Handle on a
non-empty store list with primary p and secondaries rest. -/
def C8Statement (env : RZEnv) (ev : RemoteZoneExtentCreatedEvent)
    (p : String) (rest : List String) : Prop :=
  ((env.resolveUUID p).isNone = true →
    RemoteZoneExtentCreatedEvent.Handle env ev = some (RZResult.retryable, []))
  ∧ ((env.resolveUUID p).isSome = true → env.getThriftStoreClient p = false →
    RemoteZoneExtentCreatedEvent.Handle env ev = some (RZResult.otherError, []))
  ∧ ((env.resolveUUID p).isSome = true → env.getThriftStoreClient p = true →
      env.remoteReplicateOk p = false →
    RemoteZoneExtentCreatedEvent.Handle env ev
      = some (RZResult.otherError, [RZCall.remoteReplicate ev.dstID ev.extentID p]))
  ∧ ((env.resolveUUID p).isSome = true → env.getThriftStoreClient p = true →
      env.remoteReplicateOk p = true →
      (∀ r calls, RemoteZoneExtentCreatedEvent.Handle env ev = some (r, calls) →
        ∀ c ∈ calls, c = RZCall.remoteReplicate ev.dstID ev.extentID p
          ∨ ∃ s ∈ rest, c = RZCall.replicate ev.dstID ev.extentID s p)
      ∧ ((∀ s ∈ rest, (env.resolveUUID s).isSome = true
            ∧ env.getThriftStoreClient s = true ∧ env.replicateOk s = true) →
          RemoteZoneExtentCreatedEvent.Handle env ev
            = some (RZResult.ok, RZCall.remoteReplicate ev.dstID ev.extentID p
                :: rest.map (fun s => RZCall.replicate ev.dstID ev.extentID s p)))
      ∧ (∀ pre s post, rest = pre ++ s :: post →
          (∀ t ∈ pre, (env.resolveUUID t).isSome = true
            ∧ env.getThriftStoreClient t = true ∧ env.replicateOk t = true) →
          (env.resolveUUID s).isSome = true → env.getThriftStoreClient s = true →
          env.replicateOk s = false →
          RemoteZoneExtentCreatedEvent.Handle env ev
            = some (RZResult.otherError, RZCall.remoteReplicate ev.dstID ev.extentID p
                :: pre.map (fun t => RZCall.replicate ev.dstID ev.extentID t p)
                ++ [RZCall.replicate ev.dstID ev.extentID s p])))

/-- C8: the remote-zone handler contacts the primary storeIDs[0] first
(errRetryable on resolution failure, the underlying error otherwise,
without contacting any secondary), then contacts each secondary in order
with ReplicateExtent whose sourceStoreUUID is the primary, returning at
the first failure so that later secondaries are not contacted in that
attempt. -/
theorem c8_remoteZone_handle (env : RZEnv) (ev : RemoteZoneExtentCreatedEvent)
    (p : String) (rest : List String) (hids : ev.storeIDs = p :: rest) :
    C8Statement env ev p rest := by
  refine ⟨?_, ?_, ?_, ?_⟩
  · intro h
    simp [RemoteZoneExtentCreatedEvent.Handle, hids, h]
  · intro h1 h2
    obtain ⟨a, ha⟩ := Option.isSome_iff_exists.mp h1
    simp [RemoteZoneExtentCreatedEvent.Handle, hids, ha, h2]
  · intro h1 h2 h3
    obtain ⟨a, ha⟩ := Option.isSome_iff_exists.mp h1
    simp [RemoteZoneExtentCreatedEvent.Handle, hids, ha, h2, h3]
  · intro h1 h2 h3
    obtain ⟨a, ha⟩ := Option.isSome_iff_exists.mp h1
    have hhandle : RemoteZoneExtentCreatedEvent.Handle env ev
        = some (RemoteZoneExtentCreatedEvent.replicateSecondaries env ev p rest
            [RZCall.remoteReplicate ev.dstID ev.extentID p]) := by
      simp [RemoteZoneExtentCreatedEvent.Handle, hids, ha, h2, h3]
    refine ⟨?_, ?_, ?_⟩
    · intro r calls hr c hc
      rw [hhandle] at hr
      have hcalls : calls
          = (RemoteZoneExtentCreatedEvent.replicateSecondaries env ev p rest
              [RZCall.remoteReplicate ev.dstID ev.extentID p]).2 := by
        have h := Option.some.inj hr
        rw [h]
      rw [hcalls] at hc
      rcases replicateSecondaries_calls env ev p rest _ c hc with h | h
      · exact Or.inl (List.mem_singleton.mp h)
      · exact Or.inr h
    · intro hall
      rw [hhandle, replicateSecondaries_all_ok env ev p rest _ hall]
      simp
    · intro pre s post hrest hall hsa hsb hsc
      rw [hhandle, hrest, replicateSecondaries_fail_at env ev p s hsa hsb hsc pre post _ hall]
      simp

def rzEnvA : RZEnv :=
  { resolveUUID := fun s => if s == "sbadaddr" then none else some "addr",
    getThriftStoreClient := fun _ => true,
    remoteReplicateOk := fun _ => true,
    replicateOk := fun s => s != "sbad" }

def rzEvA : RemoteZoneExtentCreatedEvent :=
  NewRemoteZoneExtentCreatedEvent "d1" "e1" ["p1", "s1", "s2"]

theorem c8_remoteZone_handle_witness :
    rzEvA.storeIDs = ["p1", "s1", "s2"] ∧ C8Statement rzEnvA rzEvA "p1" ["s1", "s2"] :=
  ⟨rfl, c8_remoteZone_handle rzEnvA rzEvA "p1" ["s1", "s2"] rfl⟩

/-! ## Claim C9 -/

def c9res : ResultCacheReadResult :=
  { cacheHit := true, refreshCache := false, expiry := 500000000,
    dstType := 0, nExtents := 0, hostIDs := [] }

/-- C9 (counterexample): at `now = 0` an entry whose expiry is exactly
now + 500 ms is "not further away than resultCacheRefreshMaxWaitTime", so
the claim says the cache is not written; the code's strict `expiry <
deadline` comparison is false there, so the entry IS rewritten. -/
theorem c9_counterexample :
    c9res.expiry ≤ 0 + resultCacheRefreshMaxWaitTime
    ∧ triggerCacheRefreshForCG 0 c9res
      = some { dstType := 0, nExtents := 0, hostIDs := [], expiry := 0 } := by
  constructor
  · decide
  · decide

/-- The amended property: not written on a miss or a pending refresh; not
written when the expiry is strictly closer than now + 500 ms; rewritten
with expiry = now and dstType/nExtents/hostIDs unchanged when the expiry
is at least now + 500 ms (the boundary case expiry = now + 500 ms is
rewritten). -/
def C9Amended (now : Int) (r : ResultCacheReadResult) : Prop :=
  (r.cacheHit = false → triggerCacheRefreshForCG now r = none)
  ∧ (r.refreshCache = true → triggerCacheRefreshForCG now r = none)
  ∧ (r.cacheHit = true → r.refreshCache = false →
      (r.expiry < now + resultCacheRefreshMaxWaitTime →
        triggerCacheRefreshForCG now r = none)
      ∧ (now + resultCacheRefreshMaxWaitTime ≤ r.expiry →
        triggerCacheRefreshForCG now r
          = some { dstType := r.dstType, nExtents := r.nExtents,
                   hostIDs := r.hostIDs, expiry := now }))

/-- C9 (amended): triggerCacheRefreshForCG writes nothing on a cache miss,
a pending refresh, or an expiry strictly below now + 500 ms; otherwise it
rewrites the entry with expiry = now and the dstType, nExtents and hostIDs
of the existing entry unchanged. -/
theorem c9_triggerCacheRefresh (now : Int) (r : ResultCacheReadResult) :
    C9Amended now r := by
  refine ⟨?_, ?_, ?_⟩
  · intro h
    simp [triggerCacheRefreshForCG, h]
  · intro h
    simp [triggerCacheRefreshForCG, h]
  · intro h1 h2
    constructor
    · intro hlt
      simp [triggerCacheRefreshForCG, h1, h2, hlt]
    · intro hle
      simp [triggerCacheRefreshForCG, h1, h2, not_lt.mpr hle]

def c9resB : ResultCacheReadResult :=
  { cacheHit := true, refreshCache := false, expiry := 600000000,
    dstType := 1, nExtents := 2, hostIDs := ["o1"] }

theorem c9_triggerCacheRefresh_witness : C9Amended 0 c9resB :=
  c9_triggerCacheRefresh 0 c9resB

/-! ## Claim C10 -/

/-- The claimed totality boundary of the remote-zone handler. -/
def C10Statement (env : RZEnv) (dstID extentID : String) (ids : List String) : Prop :=
  RemoteZoneExtentCreatedEvent.Handle env
      (NewRemoteZoneExtentCreatedEvent dstID extentID []) = none
  ∧ (ids ≠ [] →
      (RemoteZoneExtentCreatedEvent.Handle env
        (NewRemoteZoneExtentCreatedEvent dstID extentID ids)).isSome = true)

/-- C10: RemoteZoneExtentCreatedEvent.Handle reads storeIDs[0] before any
emptiness check, so on an event built by NewRemoteZoneExtentCreatedEvent
with an empty storeIDs list the out-of-bounds (panic) branch of the total
embedding is reached, while on any non-empty storeIDs list the handler
reaches a regular return. -/
theorem c10_remoteZone_empty_storeIDs (env : RZEnv) (dstID extentID : String)
    (ids : List String) : C10Statement env dstID extentID ids := by
  refine ⟨rfl, ?_⟩
  intro hne
  cases ids with
  | nil => exact absurd rfl hne
  | cons p rest =>
    simp only [RemoteZoneExtentCreatedEvent.Handle, NewRemoteZoneExtentCreatedEvent]
    split_ifs <;> simp

theorem c10_remoteZone_empty_storeIDs_witness : C10Statement rzEnvA "d1" "e1" ["p1"] :=
  c10_remoteZone_empty_storeIDs rzEnvA "d1" "e1" ["p1"]
